import Mathlib

set_option maxHeartbeats 1000000

namespace Ksense

/-- Character-list view of a string; the JavaScript builtins modelled below
process characters left to right. -/
def chars (s : String) : List Char := s.toList

/-- Leading-whitespace skipping performed by the JavaScript numeric parsing
builtins. -/
def skipWs (cs : List Char) : List Char := cs.dropWhile Char.isWhitespace

/-- Splits a leading optional sign off a character list, returning whether the
value is negated together with the remaining characters. -/
def signSplit : List Char → Bool × List Char
  | [] => (false, [])
  | c :: cs =>
    if c = '-' then (true, cs)
    else if c = '+' then (false, cs)
    else (false, c :: cs)

/-- Takes the maximal leading run of decimal digits, returning it together with
the rest of the input. -/
def takeDigits : List Char → List Char × List Char
  | [] => ([], [])
  | c :: cs =>
    if c.isDigit then
      let p := takeDigits cs
      (c :: p.1, p.2)
    else ([], c :: cs)

/-- Numeric value of a list of decimal digit characters. -/
def digitsVal (ds : List Char) : Nat :=
  ds.foldl (fun a c => 10 * a + (c.toNat - 48)) 0

/-- Model of the JavaScript builtin parseInt(s, 10) on a character list: skip
leading whitespace, read an optional sign and then the maximal run of decimal
digits, ignoring all trailing characters; NaN (here none) when no digit is
found. Radix-10 parseInt reads a hexadecimal prefix as the number 0 followed
by garbage; no input in this repository uses one, so that corner is not
modelled. -/
def jsParseIntChars (cs : List Char) : Option Int :=
  let p := signSplit (skipWs cs)
  let d := takeDigits p.2
  if d.1.isEmpty then none
  else some (if p.1 then -(digitsVal d.1 : Int) else (digitsVal d.1 : Int))

/-- parseInt(s, 10) on a string. The sources sometimes trim the argument
first; that is a no-op here because parsing already skips leading whitespace
and ignores trailing characters. -/
def jsParseIntStr (s : String) : Option Int :=
  jsParseIntChars (chars s)

/-- parseInt applied to a possibly-undefined value: parseInt(undefined, 10)
is NaN. -/
def jsParseInt : Option String → Option Int
  | none => none
  | some s => jsParseIntStr s

/-- Exact decimal number v / 10 ^ k, the representation used here for the
finite decimal values produced by the JavaScript parseFloat builtin on the
inputs of this repository. Kept unnormalised so that all comparisons are
plain integer arithmetic. -/
structure DecNum where
  v : Int
  k : Nat
deriving DecidableEq

/-- The rational value of a decimal number. -/
def DecNum.toRat (d : DecNum) : ℚ := (d.v : ℚ) / (10 : ℚ) ^ d.k

/-- Comparison a ≤ b of decimal numbers by cross multiplication. -/
def DecNum.ble (a b : DecNum) : Bool :=
  a.v * (10 : Int) ^ b.k ≤ b.v * (10 : Int) ^ a.k

/-- The decimal literal 99.5 from the temperature thresholds. -/
def d995 : DecNum := ⟨995, 1⟩

/-- The decimal literal 100.9 from the temperature thresholds. -/
def d1009 : DecNum := ⟨1009, 1⟩

/-- The decimal literal 101 from the temperature thresholds. -/
def d101 : DecNum := ⟨101, 0⟩

/-- The decimal literal 99.6 from the fever threshold. -/
def d996 : DecNum := ⟨996, 1⟩

/-- Model of the JavaScript builtin parseFloat: skip leading whitespace, read
an optional sign, an integer digit run, an optional decimal point with a
fractional digit run, ignoring all trailing characters; NaN (none) when no
digit occurs on either side of the point. Exponent forms and Infinity are not
modelled; no input in this repository uses them. The value is returned as an
exact decimal. -/
def jsParseFloatStr (s : String) : Option DecNum :=
  let p := signSplit (skipWs (chars s))
  let d := takeDigits p.2
  match d.2 with
  | '.' :: cs2 =>
    let f := takeDigits cs2
    if d.1.isEmpty && f.1.isEmpty then none
    else
      let n : Int := (digitsVal d.1 : Int) * (10 : Int) ^ f.1.length + (digitsVal f.1 : Int)
      some ⟨if p.1 then -n else n, f.1.length⟩
  | _ =>
    if d.1.isEmpty then none
    else some ⟨if p.1 then -(digitsVal d.1 : Int) else (digitsVal d.1 : Int), 0⟩

/-- parseFloat applied to a possibly-undefined value: parseFloat(undefined)
is NaN. -/
def jsParseFloat : Option String → Option DecNum
  | none => none
  | some s => jsParseFloatStr s

/-- Model of JavaScript String.prototype.split with a one-character separator,
on character lists: "a/b".split("/") gives ["a","b"], "x".split("/") gives
["x"], "".split("/") gives [""]. -/
def splitOnChar (sep : Char) : List Char → List (List Char)
  | [] => [[]]
  | c :: cs =>
    let r := splitOnChar sep cs
    if c = sep then [] :: r
    else (c :: r.headD []) :: r.tail

/-- Element i of bp.split("/"); an absent element (undefined in JavaScript)
is none and parses as NaN. -/
def bpPart (s : String) (i : Nat) : Option (List Char) :=
  (splitOnChar '/' (chars s))[i]?

/-- parseInt of side i of a blood-pressure string, NaN when the side is
absent (parseInt(undefined, 10) is NaN). -/
def jsParseIntPart (s : String) (i : Nat) : Option Int :=
  (bpPart s i).bind jsParseIntChars

/-- A raw patient record as received from the API. Fields are loosely typed
JSON values that the sources only ever pass to toString, parseInt, parseFloat,
includes and split, so each is modelled as an optional string (none =
absent / undefined). -/
structure Patient where
  patient_id : Option String
  blood_pressure : Option String
  temperature : Option String
  age : Option String
deriving DecidableEq

/-- The integer-pair core of getBloodPressureScore in both sources: the
five-branch table applied after both sides have been parsed. -/
def bpScoreSD (s d : Int) : Nat :=
  if s ≥ 140 ∨ d ≥ 90 then 4
  else if s ≥ 130 ∨ d ≥ 80 then 3
  else if s ≥ 120 ∧ d < 80 then 2
  else if s < 120 ∧ d < 80 then 1
  else 0

/-- getBloodPressureScore from the sources: 0 when the value is falsy or has
no "/", split on "/", parse both sides with parseInt (index.js trims each
side first, a no-op for parseInt), 0 when either side is NaN, otherwise the
five-branch table. -/
def getBloodPressureScore : Option String → Nat
  | none => 0
  | some s =>
    if s = "" then 0
    else if !((chars s).contains '/') then 0
    else
      match jsParseIntPart s 0, jsParseIntPart s 1 with
      | some sy, some di => bpScoreSD sy di
      | _, _ => 0

/-- The numeric branch chain of getTemperatureScore in both sources, on the
decimal value produced by parseFloat. -/
def tempScoreDec (t : DecNum) : Nat :=
  if t.ble d995 then 0
  else if t.ble d1009 then 1
  else if d101.ble t then 2
  else 0

/-- getTemperatureScore from the sources: parseFloat, 0 on NaN, then the
branch chain. -/
def getTemperatureScore (t : Option String) : Nat :=
  match jsParseFloat t with
  | none => 0
  | some temp => tempScoreDec temp

/-- getAgeScore from the sources: parseInt, 0 on NaN, 2 when the age exceeds
65, otherwise 1. -/
def getAgeScore (a : Option String) : Nat :=
  match jsParseInt a with
  | none => 0
  | some v => if v > 65 then 2 else 1

/-- Blood-pressure validity as computed in index.js analyzePatients: the
value is a string containing "/" whose two sides both parse with parseInt. -/
def validBPIJ : Option String → Bool
  | none => false
  | some s =>
    (chars s).contains '/' && (jsParseIntPart s 0).isSome && (jsParseIntPart s 1).isSome

/-- Blood-pressure validity as computed in the unnamed variant: the value is
truthy (in this model, a non-empty string), contains "/" and both sides parse
with parseInt. -/
def validBPP0 : Option String → Bool
  | none => false
  | some s =>
    !(s = "") && (chars s).contains '/' &&
      (jsParseIntPart s 0).isSome && (jsParseIntPart s 1).isSome

/-- Temperature validity in both sources: parseFloat does not give NaN. -/
def validTempB (t : Option String) : Bool := (jsParseFloat t).isSome

/-- Age validity in both sources: parseInt does not give NaN. -/
def validAgeB (a : Option String) : Bool := (jsParseInt a).isSome

/-- The usable identifier of a record in index.js analyzePatients:
p.patient_id?.toString().trim(), with a falsy (absent or empty) result
causing the record to be skipped. JavaScript trim removes whitespace from
both ends. -/
def usableId (p : Patient) : Option String :=
  match p.patient_id with
  | none => none
  | some s =>
    let t := ((chars s).dropWhile Char.isWhitespace).reverse.dropWhile Char.isWhitespace
    if t.isEmpty then none else some t.reverse.asString

/-- The fever test in both sources: parseFloat(p.temperature) ≥ 99.6 (always
false on NaN, matching the guard validTemp that precedes it). -/
def feverCond (t : Option String) : Bool :=
  match jsParseFloat t with
  | none => false
  | some temp => d996.ble temp

/-- The combined score in index.js analyzePatients: the three metric scores
summed without validity gating (each scorer already yields 0 on an invalid
value). -/
def totalScoreIJ (p : Patient) : Nat :=
  getBloodPressureScore p.blood_pressure + getTemperatureScore p.temperature +
    getAgeScore p.age

/-- The combined score in the unnamed variant: each metric score is gated by
its validity flag before summing. -/
def totalScoreP0 (p : Patient) : Nat :=
  (if validBPP0 p.blood_pressure then getBloodPressureScore p.blood_pressure else 0) +
  (if validTempB p.temperature then getTemperatureScore p.temperature else 0) +
  (if validAgeB p.age then getAgeScore p.age else 0)

/-- The three alert collections produced by index.js analyzePatients. -/
structure Alerts where
  highRiskPatients : List String
  feverPatients : List String
  dataQualityIssues : List String
deriving DecidableEq

/-- The three alert collections produced by the unnamed variant, which pushes
the raw patient_id value (possibly undefined). -/
structure AlertsP0 where
  highRiskPatients : List (Option String)
  feverPatients : List (Option String)
  dataQualityIssues : List (Option String)
deriving DecidableEq

/-- Deduplication by the JavaScript Set constructor: keeps the first
occurrence of each element, in insertion order. -/
def jsSetDedup (l : List String) : List String :=
  l.foldl (fun acc x => if x ∈ acc then acc else acc ++ [x]) []

/-- The single pass of index.js analyzePatients: skip records without a
usable identifier; push onto highRisk when the total score reaches 4 AND
blood pressure AND age are valid; push onto fever when the temperature is
valid and at least 99.6; push onto dataQualityIssues when any metric is
invalid. -/
def analyzeIJraw : List Patient → Alerts
  | [] => ⟨[], [], []⟩
  | p :: ps =>
    let rest := analyzeIJraw ps
    match usableId p with
    | none => rest
    | some id =>
      let vBP := validBPIJ p.blood_pressure
      let vT := validTempB p.temperature
      let vA := validAgeB p.age
      ⟨(if 4 ≤ totalScoreIJ p ∧ vBP ∧ vA then [id] else []) ++ rest.highRiskPatients,
       (if vT ∧ feverCond p.temperature then [id] else []) ++ rest.feverPatients,
       (if ¬vBP ∨ ¬vT ∨ ¬vA then [id] else []) ++ rest.dataQualityIssues⟩

/-- analyzePatients from index.js: the single pass followed by Set-based
deduplication of each of the three collections. -/
def analyzePatientsIJ (ps : List Patient) : Alerts :=
  let r := analyzeIJraw ps
  ⟨jsSetDedup r.highRiskPatients, jsSetDedup r.feverPatients,
   jsSetDedup r.dataQualityIssues⟩

/-- analyzePatients from the unnamed variant: no identifier check, the raw
patient_id is pushed; highRisk requires total score at least 4 and at least
one valid metric; no deduplication. -/
def analyzePatientsP0 : List Patient → AlertsP0
  | [] => ⟨[], [], []⟩
  | p :: ps =>
    let rest := analyzePatientsP0 ps
    let vBP := validBPP0 p.blood_pressure
    let vT := validTempB p.temperature
    let vA := validAgeB p.age
    ⟨(if 4 ≤ totalScoreP0 p ∧ (vBP ∨ vT ∨ vA) then [p.patient_id] else []) ++
        rest.highRiskPatients,
     (if vT ∧ feverCond p.temperature then [p.patient_id] else []) ++
        rest.feverPatients,
     (if ¬vBP ∨ ¬vT ∨ ¬vA then [p.patient_id] else []) ++
        rest.dataQualityIssues⟩

/-- The JSON body of one page response, with the optional record array
locations probed by extractPatients and the optional pagination.hasNext
flag. -/
structure PageData where
  dataField : Option (List Patient)
  patientsField : Option (List Patient)
  resultField : Option (List Patient)
  hasNext : Option Bool
deriving DecidableEq

/-- The outcome of one HTTP attempt: a response with a status code and a JSON
body (none models a null body), or the fetch call itself throwing. -/
inductive AttemptResp where
  | http (status : Nat) (body : Option PageData)
  | netError
deriving DecidableEq

/-- The result of index.js fetchWithRetry: a returned JSON value, a thrown
error, or undefined when the loop finishes without returning (every attempt
hit the 429 / 5xx continue branch). -/
inductive IJFetchResult where
  | val (body : Option PageData)
  | thrown (msg : String)
  | undef
deriving DecidableEq

/-- The attempt loop of index.js fetchWithRetry over a schedule of attempt
outcomes, returning the result together with the number of attempts
performed. Attempt i is the loop iteration with index i; remaining counts the
iterations still available including the current one, so the JavaScript test
i === retries - 1 in the catch block is remaining = 1. On 429 or 5xx the code
waits and continues; on any other non-success status it throws an HTTP error
that its own catch block turns into a retry, except on the final iteration
where the catch rethrows. -/
def fetchWithRetryIJgo (resp : Nat → AttemptResp) (i : Nat) :
    Nat → IJFetchResult × Nat
  | 0 => (.undef, i)
  | remaining + 1 =>
    match resp i with
    | .netError =>
      if remaining = 0 then (.thrown "network error", i + 1)
      else fetchWithRetryIJgo resp (i + 1) remaining
    | .http st body =>
      if st = 429 ∨ (500 ≤ st ∧ st < 600) then fetchWithRetryIJgo resp (i + 1) remaining
      else if 200 ≤ st ∧ st < 300 then (.val body, i + 1)
      else if remaining = 0 then (.thrown ("HTTP error " ++ toString st), i + 1)
      else fetchWithRetryIJgo resp (i + 1) remaining

/-- index.js fetchWithRetry with its default budget of 5 attempts. -/
def fetchWithRetryIJ (resp : Nat → AttemptResp) : IJFetchResult × Nat :=
  fetchWithRetryIJgo resp 0 5

/-- The result of the unnamed variant's fetchWithRetry: a returned JSON value
or a thrown error (this variant always throws after the loop). -/
inductive P0FetchResult where
  | val (body : Option PageData)
  | thrown (msg : String)
deriving DecidableEq

/-- The attempt loop of the unnamed variant's fetchWithRetry. On 429 and on
5xx the code waits and continues. A 404 response throws "404 Not Found –
check endpoint URL" and any other non-success status throws a generic HTTP
error, but both throws happen inside the try block whose catch merely warns,
waits and lets the loop continue, so every failing attempt consumes one slot;
when the loop ends the function throws "Max retries exceeded". -/
def fetchWithRetryP0go (resp : Nat → AttemptResp) (i : Nat) :
    Nat → P0FetchResult × Nat
  | 0 => (.thrown "Max retries exceeded", i)
  | remaining + 1 =>
    match resp i with
    | .netError => fetchWithRetryP0go resp (i + 1) remaining
    | .http st body =>
      if st = 429 then fetchWithRetryP0go resp (i + 1) remaining
      else if 500 ≤ st ∧ st < 600 then fetchWithRetryP0go resp (i + 1) remaining
      else if st = 404 then fetchWithRetryP0go resp (i + 1) remaining
      else if ¬(200 ≤ st ∧ st < 300) then fetchWithRetryP0go resp (i + 1) remaining
      else (.val body, i + 1)

/-- The unnamed variant's fetchWithRetry with its default budget of 5
attempts. -/
def fetchWithRetryP0 (resp : Nat → AttemptResp) : P0FetchResult × Nat :=
  fetchWithRetryP0go resp 0 5

/-- extractPatients from index.js: empty for a falsy body, otherwise the
first array found under data, patients or result, else empty. -/
def extractPatients : Option PageData → List Patient
  | none => []
  | some d =>
    match d.dataField with
    | some a => a
    | none =>
      match d.patientsField with
      | some a => a
      | none =>
        match d.resultField with
        | some a => a
        | none => []

/-- The pagination loop of index.js fetchAllPatients over a schedule giving
each page's attempt outcomes (pages are numbered from 1). A thrown
fetchWithRetry error propagates; an undefined or unusable body yields an
empty extraction and stops the loop, returning what was accumulated; after a
non-empty page the loop continues while pagination?.hasNext, defaulting to
patients.length > 0 when absent. The fuel bounds the number of loop
iterations modelled and every theorem below supplies enough of it. -/
def fetchAllIJgo (sched : Nat → Nat → AttemptResp) (page : Nat)
    (acc : List Patient) : Nat → Except String (List Patient)
  | 0 => .ok acc
  | fuel + 1 =>
    match fetchWithRetryIJ (sched page) with
    | (.thrown m, _) => .error m
    | (r, _) =>
      let d : Option PageData := match r with | .val b => b | _ => none
      let ps := extractPatients d
      if ps.isEmpty then .ok acc
      else
        let hasNext := ((d.bind PageData.hasNext).getD (ps.length != 0))
        if hasNext then fetchAllIJgo sched (page + 1) (acc ++ ps) fuel
        else .ok (acc ++ ps)

/-- fetchAllPatients from index.js, starting at page 1 with an empty
accumulator. -/
def fetchAllPatientsIJ (sched : Nat → Nat → AttemptResp) (fuel : Nat) :
    Except String (List Patient) :=
  fetchAllIJgo sched 1 [] fuel

/-- Observable trace of one submitResults run: whether it returned
successfully, how many POST attempts it made, and the waits (in
milliseconds) it performed between attempts. -/
structure SubmitTrace where
  success : Bool
  attempts : Nat
  delays : List Nat
deriving DecidableEq

/-- The attempt loop of index.js submitResults over a schedule of response
status codes: return on a 2xx; on 429 or 5xx wait a fixed 2000 ms and
continue; on any other status break out of the loop; the function throws
after the loop. -/
def submitIJgo (status : Nat → Nat) (i : Nat) (acc : List Nat) :
    Nat → SubmitTrace
  | 0 => ⟨false, i, acc⟩
  | remaining + 1 =>
    let st := status i
    if 200 ≤ st ∧ st < 300 then ⟨true, i + 1, acc⟩
    else if 500 ≤ st ∨ st = 429 then submitIJgo status (i + 1) (acc ++ [2000]) remaining
    else ⟨false, i + 1, acc⟩

/-- submitResults from index.js with its bound of 3 attempts. -/
def submitResultsIJ (status : Nat → Nat) : SubmitTrace :=
  submitIJgo status 0 [] 3

/-- The attempt loop of the unnamed variant's submitResults: a non-2xx status
throws inside the try block, whose catch waits 1000 * (i + 1) ms and lets the
loop continue, so every non-success status is retried; the function throws
after the loop. -/
def submitP0go (status : Nat → Nat) (i : Nat) (acc : List Nat) :
    Nat → SubmitTrace
  | 0 => ⟨false, i, acc⟩
  | remaining + 1 =>
    let st := status i
    if 200 ≤ st ∧ st < 300 then ⟨true, i + 1, acc⟩
    else submitP0go status (i + 1) (acc ++ [1000 * (i + 1)]) remaining

/-- submitResults from the unnamed variant with its default of 3 attempts. -/
def submitResultsP0 (status : Nat → Nat) : SubmitTrace :=
  submitP0go status 0 [] 3

/-- What the top-level run observably did: whether submitResults was invoked
at all and whether the run ended in the catch block with an error. -/
structure RunResult where
  submitAttempted : Bool
  errored : Bool
deriving DecidableEq

/-- The top-level run of index.js after fetching, as a function of the
fetched records and of whether the submission would succeed: throw when zero
records were fetched; classify; throw without submitting when all three alert
collections are empty; otherwise submit. Every throw is caught by the
trailing catch block, which reports the error and ends the run. -/
def mainIJ (patients : List Patient) (submitOk : Bool) : RunResult :=
  if patients.length = 0 then ⟨false, true⟩
  else
    let alerts := analyzePatientsIJ patients
    if alerts.highRiskPatients.isEmpty ∧ alerts.feverPatients.isEmpty ∧
        alerts.dataQualityIssues.isEmpty then ⟨false, true⟩
    else ⟨true, !submitOk⟩

/-- The contribution of one record to the highRisk collection in index.js
analyzePatients, as a list (empty or a singleton); proven below to rebuild
the pass by concatenation. -/
def hrContribIJ (p : Patient) : List String :=
  match usableId p with
  | none => []
  | some id =>
    if 4 ≤ totalScoreIJ p ∧ validBPIJ p.blood_pressure ∧ validAgeB p.age then [id]
    else []

/-- The contribution of one record to the fever collection in index.js
analyzePatients. -/
def feverContribIJ (p : Patient) : List String :=
  match usableId p with
  | none => []
  | some id =>
    if validTempB p.temperature ∧ feverCond p.temperature then [id] else []

/-- The contribution of one record to the dataQualityIssues collection in
index.js analyzePatients. -/
def dqContribIJ (p : Patient) : List String :=
  match usableId p with
  | none => []
  | some id =>
    if ¬validBPIJ p.blood_pressure ∨ ¬validTempB p.temperature ∨ ¬validAgeB p.age
    then [id] else []

/-- The contribution of one record to the highRisk collection in the unnamed
variant's analyzePatients. -/
def hrContribP0 (p : Patient) : List (Option String) :=
  if 4 ≤ totalScoreP0 p ∧
      (validBPP0 p.blood_pressure ∨ validTempB p.temperature ∨ validAgeB p.age)
  then [p.patient_id] else []

/-- The temperature branch chain of getTemperatureScore read over exact
rationals: 0 when t ≤ 99.5, else 1 when t ≤ 100.9, else 2 when t ≥ 101,
else 0. -/
def tempScoreQ (t : ℚ) : Nat :=
  if t ≤ 99.5 then 0
  else if t ≤ 100.9 then 1
  else if 101 ≤ t then 2
  else 0

/-- The amended disjoint bucket table for the temperature score: 0 on
t ≤ 99.5, 1 on 99.5 < t ≤ 100.9, 2 on t ≥ 101, and 0 (the final catch-all
branch) on 100.9 < t < 101. -/
def tempBucketsAmended (t : ℚ) : Nat :=
  if t ≤ 99.5 then 0
  else if 99.5 < t ∧ t ≤ 100.9 then 1
  else if 101 ≤ t then 2
  else 0

theorem mem_foldl_dedup (a : String) (l acc : List String) :
    a ∈ l.foldl (fun acc x => if x ∈ acc then acc else acc ++ [x]) acc ↔
      a ∈ acc ∨ a ∈ l := by
  induction l generalizing acc with
  | nil => simp
  | cons x xs ih =>
    simp only [List.foldl_cons]
    rw [ih]
    by_cases h : x ∈ acc
    · rw [if_pos h]
      simp only [List.mem_cons]
      constructor
      · rintro (ha | ha)
        · exact Or.inl ha
        · exact Or.inr (Or.inr ha)
      · rintro (ha | ha | ha)
        · exact Or.inl ha
        · exact Or.inl (by rw [ha]; exact h)
        · exact Or.inr ha
    · rw [if_neg h]
      simp only [List.mem_append, List.mem_cons, List.mem_singleton]
      tauto

theorem mem_jsSetDedup (a : String) (l : List String) :
    a ∈ jsSetDedup l ↔ a ∈ l := by
  unfold jsSetDedup
  rw [mem_foldl_dedup]
  simp

theorem nodup_foldl_dedup (l acc : List String) (h : acc.Nodup) :
    (l.foldl (fun acc x => if x ∈ acc then acc else acc ++ [x]) acc).Nodup := by
  induction l generalizing acc with
  | nil => simpa using h
  | cons x xs ih =>
    simp only [List.foldl_cons]
    by_cases hx : x ∈ acc
    · rw [if_pos hx]
      exact ih acc h
    · rw [if_neg hx]
      refine ih _ ?_
      simp [List.nodup_append, h, hx]

theorem nodup_jsSetDedup (l : List String) : (jsSetDedup l).Nodup :=
  nodup_foldl_dedup l [] (by simp)

theorem analyzeIJraw_eq_bind (ps : List Patient) :
    analyzeIJraw ps =
      ⟨ps.flatMap hrContribIJ, ps.flatMap feverContribIJ, ps.flatMap dqContribIJ⟩ := by
  induction ps with
  | nil => rfl
  | cons p ps ih =>
    cases h : usableId p <;>
      simp [analyzeIJraw, hrContribIJ, feverContribIJ, dqContribIJ, h, ih]

theorem analyzeP0_highRisk_eq (ps : List Patient) :
    (analyzePatientsP0 ps).highRiskPatients = ps.flatMap hrContribP0 := by
  induction ps with
  | nil => rfl
  | cons p ps ih =>
    simp [analyzePatientsP0, hrContribP0, ih]

theorem mem_hrContribIJ (p : Patient) (id : String) :
    id ∈ hrContribIJ p ↔
      usableId p = some id ∧
        (4 ≤ totalScoreIJ p ∧ validBPIJ p.blood_pressure ∧ validAgeB p.age) := by
  cases h : usableId p with
  | none => simp [hrContribIJ, h]
  | some i =>
    by_cases hc : 4 ≤ totalScoreIJ p ∧ validBPIJ p.blood_pressure ∧ validAgeB p.age
    · simp only [hrContribIJ, h]
      rw [if_pos hc]
      simp only [List.mem_singleton, Option.some.injEq]
      constructor
      · intro h2
        exact ⟨h2.symm, hc⟩
      · intro h2
        exact h2.1.symm
    · simp [hrContribIJ, h, hc]

theorem mem_hrContribP0 (p : Patient) (oid : Option String) :
    oid ∈ hrContribP0 p ↔
      p.patient_id = oid ∧
        (4 ≤ totalScoreP0 p ∧
          (validBPP0 p.blood_pressure ∨ validTempB p.temperature ∨ validAgeB p.age)) := by
  unfold hrContribP0
  by_cases hc : 4 ≤ totalScoreP0 p ∧
      (validBPP0 p.blood_pressure ∨ validTempB p.temperature ∨ validAgeB p.age)
  · rw [if_pos hc]
    simp only [List.mem_singleton]
    constructor
    · intro h2
      exact ⟨h2.symm, hc⟩
    · intro h2
      exact h2.1.symm
  · simp [hc]

theorem DecNum.ble_iff (a b : DecNum) : a.ble b = true ↔ a.toRat ≤ b.toRat := by
  unfold DecNum.ble DecNum.toRat
  rw [decide_eq_true_eq, div_le_div_iff₀ (by positivity) (by positivity)]
  constructor
  · intro h
    exact_mod_cast h
  · intro h
    exact_mod_cast h

theorem DecNum.ble_eq (a b : DecNum) : a.ble b = decide (a.toRat ≤ b.toRat) := by
  rcases hb : a.ble b with _ | _
  · have h := DecNum.ble_iff a b
    rw [hb] at h
    simp at h
    simp [h]
  · have h := DecNum.ble_iff a b
    rw [hb] at h
    simp at h
    simp [h]

theorem d995_toRat : d995.toRat = 99.5 := by
  norm_num [DecNum.toRat, d995]

theorem d1009_toRat : d1009.toRat = 100.9 := by
  norm_num [DecNum.toRat, d1009]

theorem d101_toRat : d101.toRat = 101 := by
  norm_num [DecNum.toRat, d101]

theorem d996_toRat : d996.toRat = 99.6 := by
  norm_num [DecNum.toRat, d996]

theorem tempScoreDec_toRat (t : DecNum) : tempScoreDec t = tempScoreQ t.toRat := by
  unfold tempScoreDec tempScoreQ
  rw [DecNum.ble_eq t d995, DecNum.ble_eq t d1009, DecNum.ble_eq d101 t,
    d995_toRat, d1009_toRat, d101_toRat]
  simp only [decide_eq_true_eq]

/-- C1 (amended): in the index.js variant a usable identifier appears in the
deduplicated highRisk output iff some record carries it with combined score
at least 4 AND valid blood pressure AND valid age; in the unnamed variant the
raw patient_id value appears in the highRisk output iff some record carries
it with combined score at least 4 and at least one of the three metrics
valid. -/
theorem highRisk_membership :
    (∀ (ps : List Patient) (id : String),
      id ∈ (analyzePatientsIJ ps).highRiskPatients ↔
        ∃ p ∈ ps, usableId p = some id ∧
          (4 ≤ totalScoreIJ p ∧ validBPIJ p.blood_pressure ∧ validAgeB p.age)) ∧
    (∀ (ps : List Patient) (oid : Option String),
      oid ∈ (analyzePatientsP0 ps).highRiskPatients ↔
        ∃ p ∈ ps, p.patient_id = oid ∧
          (4 ≤ totalScoreP0 p ∧
            (validBPP0 p.blood_pressure ∨ validTempB p.temperature ∨
              validAgeB p.age))) := by
  constructor
  · intro ps id
    simp only [analyzePatientsIJ, analyzeIJraw_eq_bind]
    rw [mem_jsSetDedup, List.mem_flatMap]
    simp only [mem_hrContribIJ]
  · intro ps oid
    rw [analyzeP0_highRisk_eq, List.mem_flatMap]
    simp only [mem_hrContribP0]

/-- C1 counterexample: the record with identifier P9, unparseable blood
pressure, temperature 102 and age 70 has a usable identifier, combined score
4 and a valid metric (temperature), yet index.js does not place P9 in
highRisk because its condition also demands valid blood pressure and valid
age. -/
theorem highRisk_iff_fails_on_IJ :
    usableId ⟨some "P9", some "oops", some "102", some "70"⟩ = some "P9" ∧
    4 ≤ totalScoreIJ ⟨some "P9", some "oops", some "102", some "70"⟩ ∧
    validTempB (some "102") = true ∧
    "P9" ∉
      (analyzePatientsIJ
        [⟨some "P9", some "oops", some "102", some "70"⟩]).highRiskPatients := by
  decide

/-- C4 (amended): the temperature branch chain equals the disjoint bucket
table whose gap 100.9 < t < 101 scores 0 (the final catch-all), not 1; it
buckets the boundary values 99.5, 100.9 and 101.0 to 0, 1 and 2; and the
chain over exact rationals agrees with the decimal computation that
getTemperatureScore performs. -/
theorem temperature_bucket_table :
    (∀ t : ℚ, tempScoreQ t = tempBucketsAmended t) ∧
    (∀ d : DecNum, tempScoreDec d = tempScoreQ d.toRat) ∧
    tempScoreQ 99.5 = 0 ∧ tempScoreQ 100.9 = 1 ∧ tempScoreQ 101 = 2 ∧
    getTemperatureScore (some "99.5") = 0 ∧
    getTemperatureScore (some "100.9") = 1 ∧
    getTemperatureScore (some "101.0") = 2 := by
  refine ⟨?_, tempScoreDec_toRat, ?_, ?_, ?_, by decide, by decide, by decide⟩
  · intro t
    by_cases h1 : t ≤ 99.5
    · simp [tempScoreQ, tempBucketsAmended, h1]
    · by_cases h2 : t ≤ 100.9
      · have h3 : (99.5 : ℚ) < t := not_le.mp h1
        simp [tempScoreQ, tempBucketsAmended, h1, h2, h3]
      · simp [tempScoreQ, tempBucketsAmended, h1, h2]
  · norm_num [tempScoreQ]
  · norm_num [tempScoreQ]
  · norm_num [tempScoreQ]

/-- C4 counterexample: 100.95 lies strictly between 100.9 and 101 and the
branch chain gives it score 0, not the claimed 1; the full pipeline
getTemperatureScore agrees. -/
theorem temp_gap_scores_zero :
    (100.9 : ℚ) < 100.95 ∧ (100.95 : ℚ) < 101 ∧
    tempScoreQ 100.95 = 0 ∧ ¬ tempScoreQ 100.95 = 1 ∧
    getTemperatureScore (some "100.95") = 0 := by
  refine ⟨by norm_num, by norm_num, ?_, ?_, by decide⟩
  · norm_num [tempScoreQ]
  · norm_num [tempScoreQ]

/-- C5 (amended): in the index.js variant a record without a usable
identifier is skipped entirely — deleting it from the input changes none of
the three outputs; the unnamed variant has no identifier guard (see the
counterexample). -/
theorem missing_id_skipped_IJ (l1 l2 : List Patient) (p : Patient)
    (h : usableId p = none) :
    analyzePatientsIJ (l1 ++ p :: l2) = analyzePatientsIJ (l1 ++ l2) := by
  have hhr : hrContribIJ p = [] := by simp [hrContribIJ, h]
  have hfv : feverContribIJ p = [] := by simp [feverContribIJ, h]
  have hdq : dqContribIJ p = [] := by simp [dqContribIJ, h]
  simp [analyzePatientsIJ, analyzeIJraw_eq_bind, hhr, hfv, hdq]

/-- Witness for C5: a concrete record with an absent identifier is skipped by
the index.js classifier. -/
theorem missing_id_skipped_IJ_witness :
    usableId ⟨none, some "150/95", some "103", some "80"⟩ = none ∧
    analyzePatientsIJ [⟨none, some "150/95", some "103", some "80"⟩] =
      analyzePatientsIJ [] :=
  ⟨by decide,
   missing_id_skipped_IJ [] [] ⟨none, some "150/95", some "103", some "80"⟩
     (by decide)⟩

/-- C5 counterexample: in the unnamed variant a record with no identifier at
all still contributes (its undefined patient_id) to dataQualityIssues. -/
theorem missing_id_contributes_P0 :
    (⟨none, none, some "98", some "30"⟩ : Patient).patient_id = none ∧
    (analyzePatientsP0 [⟨none, none, some "98", some "30"⟩]).dataQualityIssues =
      [none] := by
  decide

/-- C6 (amended): the index.js variant deduplicates, so each of its three
output collections is duplicate-free; the unnamed variant returns the raw
push arrays, which can repeat an identifier (see the counterexample). -/
theorem alert_sets_nodup_IJ (ps : List Patient) :
    (analyzePatientsIJ ps).highRiskPatients.Nodup ∧
    (analyzePatientsIJ ps).feverPatients.Nodup ∧
    (analyzePatientsIJ ps).dataQualityIssues.Nodup :=
  ⟨nodup_jsSetDedup _, nodup_jsSetDedup _, nodup_jsSetDedup _⟩

/-- C6 counterexample: feeding the unnamed variant the same fever-qualifying
record twice puts its identifier into feverPatients twice. -/
theorem duplicate_id_P0 :
    ((analyzePatientsP0
        [⟨some "P1", some "120/80", some "100", some "30"⟩,
         ⟨some "P1", some "120/80", some "100", some "30"⟩]).feverPatients).count
      (some "P1") = 2 := by
  decide

/-- C8: for every integer pair the blood-pressure score equals the
five-branch table with first-match precedence, stated as a disjoint
characterization of each result value, so every pair lands in exactly one
branch. -/
theorem bp_table_total :
    ∀ s d : Int,
      (bpScoreSD s d = 4 ↔ (140 ≤ s ∨ 90 ≤ d)) ∧
      (bpScoreSD s d = 3 ↔ (¬(140 ≤ s ∨ 90 ≤ d) ∧ (130 ≤ s ∨ 80 ≤ d))) ∧
      (bpScoreSD s d = 2 ↔
        (¬(140 ≤ s ∨ 90 ≤ d) ∧ ¬(130 ≤ s ∨ 80 ≤ d) ∧ (120 ≤ s ∧ d < 80))) ∧
      (bpScoreSD s d = 1 ↔
        (¬(140 ≤ s ∨ 90 ≤ d) ∧ ¬(130 ≤ s ∨ 80 ≤ d) ∧ ¬(120 ≤ s ∧ d < 80) ∧
          (s < 120 ∧ d < 80))) ∧
      (bpScoreSD s d = 0 ↔
        (¬(140 ≤ s ∨ 90 ≤ d) ∧ ¬(130 ≤ s ∨ 80 ≤ d) ∧ ¬(120 ≤ s ∧ d < 80) ∧
          ¬(s < 120 ∧ d < 80))) := by
  intro s d
  unfold bpScoreSD
  split_ifs <;> simp_all

/-- C2: evaluating both fetchWithRetry variants on a server that answers 404
on every attempt. The unnamed variant's 404 throw is swallowed by its own
catch block, so it performs all 5 attempts and ends with the generic
exhaustion error instead of failing immediately; index.js likewise retries
the 404 through its generic catch path for all 5 attempts. -/
theorem fetch404_consumes_budget_P0 :
    fetchWithRetryP0 (fun _ => .http 404 none) =
      (.thrown "Max retries exceeded", 5) ∧
    fetchWithRetryIJ (fun _ => .http 404 none) =
      (.thrown "HTTP error 404", 5) := by
  constructor <;> decide

/-- C3: on a page that answers 429 on every attempt, index.js fetchWithRetry
exhausts its 5 attempts and falls out of the loop returning undefined rather
than throwing, and fetchAllPatients then treats the page as empty and
returns the partial list fetched so far as a success. -/
theorem fetch429_partial_result_IJ :
    fetchWithRetryIJ (fun _ => .http 429 none) = (.undef, 5) ∧
    fetchAllPatientsIJ
      (fun page _ =>
        if page = 1 then
          .http 200
            (some ⟨some [⟨some "P1", some "150/95", some "98", some "70"⟩],
              none, none, some true⟩)
        else .http 429 none) 3 =
      .ok [⟨some "P1", some "150/95", some "98", some "70"⟩] :=
  ⟨by decide, rfl⟩

/-- C7 counterexample: status 400 is neither 429 nor a 5xx, yet the unnamed
variant's submitResults performs all 3 attempts (with delays 1000, 2000,
3000 ms) instead of stopping immediately. -/
theorem submit_client_error_retried_P0 :
    ¬(400 = 429 ∨ 500 ≤ 400) ∧
    submitResultsP0 (fun _ => 400) = ⟨false, 3, [1000, 2000, 3000]⟩ := by
  constructor <;> decide

/-- C7 (amended): index.js stops after one attempt and raises the terminal
error on a non-retryable status, and retries up to 3 attempts with a fixed
2000 ms delay (not scaled by attempt number) on 429/5xx; the unnamed variant
retries every non-success status with delay 1000 ms times the attempt
number, up to 3 attempts, before raising the terminal error. -/
theorem submit_retry_policy :
    (∀ status : Nat → Nat,
      ¬(200 ≤ status 0 ∧ status 0 < 300) → ¬(500 ≤ status 0 ∨ status 0 = 429) →
      submitResultsIJ status = ⟨false, 1, []⟩) ∧
    (∀ status : Nat → Nat, (∀ i, i < 3 → 500 ≤ status i ∨ status i = 429) →
      submitResultsIJ status = ⟨false, 3, [2000, 2000, 2000]⟩) ∧
    (∀ status : Nat → Nat, (∀ i, i < 3 → ¬(200 ≤ status i ∧ status i < 300)) →
      submitResultsP0 status = ⟨false, 3, [1000, 2000, 3000]⟩) := by
  refine ⟨?_, ?_, ?_⟩
  · intro status h1 h2
    rw [show submitResultsIJ status =
        (if 200 ≤ status 0 ∧ status 0 < 300 then (⟨true, 1, []⟩ : SubmitTrace)
         else if 500 ≤ status 0 ∨ status 0 = 429 then submitIJgo status 1 [2000] 2
         else ⟨false, 1, []⟩) from rfl]
    rw [if_neg h1, if_neg h2]
  · intro status h
    have e0 := h 0 (by omega)
    have e1 := h 1 (by omega)
    have e2 := h 2 (by omega)
    have n0 : ¬(200 ≤ status 0 ∧ status 0 < 300) := by omega
    have n1 : ¬(200 ≤ status 1 ∧ status 1 < 300) := by omega
    have n2 : ¬(200 ≤ status 2 ∧ status 2 < 300) := by omega
    rw [show submitResultsIJ status =
        (if 200 ≤ status 0 ∧ status 0 < 300 then (⟨true, 1, []⟩ : SubmitTrace)
         else if 500 ≤ status 0 ∨ status 0 = 429 then submitIJgo status 1 [2000] 2
         else ⟨false, 1, []⟩) from rfl]
    rw [if_neg n0, if_pos e0]
    rw [show submitIJgo status 1 [2000] 2 =
        (if 200 ≤ status 1 ∧ status 1 < 300 then (⟨true, 2, [2000]⟩ : SubmitTrace)
         else if 500 ≤ status 1 ∨ status 1 = 429 then
           submitIJgo status 2 [2000, 2000] 1
         else ⟨false, 2, [2000]⟩) from rfl]
    rw [if_neg n1, if_pos e1]
    rw [show submitIJgo status 2 [2000, 2000] 1 =
        (if 200 ≤ status 2 ∧ status 2 < 300 then
           (⟨true, 3, [2000, 2000]⟩ : SubmitTrace)
         else if 500 ≤ status 2 ∨ status 2 = 429 then
           submitIJgo status 3 [2000, 2000, 2000] 0
         else ⟨false, 3, [2000, 2000]⟩) from rfl]
    rw [if_neg n2, if_pos e2]
    rfl
  · intro status h
    have n0 := h 0 (by omega)
    have n1 := h 1 (by omega)
    have n2 := h 2 (by omega)
    rw [show submitResultsP0 status =
        (if 200 ≤ status 0 ∧ status 0 < 300 then (⟨true, 1, []⟩ : SubmitTrace)
         else submitP0go status 1 [1000] 2) from rfl]
    rw [if_neg n0]
    rw [show submitP0go status 1 [1000] 2 =
        (if 200 ≤ status 1 ∧ status 1 < 300 then (⟨true, 2, [1000]⟩ : SubmitTrace)
         else submitP0go status 2 [1000, 2000] 1) from rfl]
    rw [if_neg n1]
    rw [show submitP0go status 2 [1000, 2000] 1 =
        (if 200 ≤ status 2 ∧ status 2 < 300 then
           (⟨true, 3, [1000, 2000]⟩ : SubmitTrace)
         else submitP0go status 3 [1000, 2000, 3000] 0) from rfl]
    rw [if_neg n2]
    rfl

/-- Witness for C7: concrete all-400, all-503 and all-418 schedules
instantiating the three retry-policy statements. -/
theorem submit_retry_policy_witness :
    submitResultsIJ (fun _ => 400) = ⟨false, 1, []⟩ ∧
    submitResultsIJ (fun _ => 503) = ⟨false, 3, [2000, 2000, 2000]⟩ ∧
    submitResultsP0 (fun _ => 418) = ⟨false, 3, [1000, 2000, 3000]⟩ :=
  ⟨submit_retry_policy.1 (fun _ => 400) (by decide) (by decide),
   submit_retry_policy.2.1 (fun _ => 503)
     (fun i _ => (by decide : 500 ≤ 503 ∨ 503 = 429)),
   submit_retry_policy.2.2 (fun _ => 418)
     (fun i _ => (by decide : ¬(200 ≤ 418 ∧ 418 < 300)))⟩

theorem digit_not_ws (c : Char) (h : c.isDigit = true) : c.isWhitespace = false := by
  by_contra hw
  rw [Bool.not_eq_false] at hw
  have h4 : c = ' ' ∨ c = '\t' ∨ c = '\r' ∨ c = '\n' := by
    simp only [Char.isWhitespace, Bool.or_eq_true, decide_eq_true_eq] at hw
    tauto
  rcases h4 with h1 | h1 | h1 | h1 <;> subst h1 <;> exact absurd h (by decide)

theorem digit_ne_dash (c : Char) (h : c.isDigit = true) : ¬ c = '-' := by
  intro hc
  subst hc
  exact absurd h (by decide)

theorem digit_ne_plus (c : Char) (h : c.isDigit = true) : ¬ c = '+' := by
  intro hc
  subst hc
  exact absurd h (by decide)

theorem takeDigits_append (ds rest : List Char)
    (hds : ∀ c ∈ ds, c.isDigit = true)
    (hrest : ∀ c ∈ rest.take 1, c.isDigit = false) :
    takeDigits (ds ++ rest) = (ds, rest) := by
  induction ds with
  | nil =>
    simp only [List.nil_append]
    cases rest with
    | nil => rfl
    | cons c cs =>
      have hc : c.isDigit = false := hrest c (by simp)
      simp [takeDigits, hc]
  | cons d ds ih =>
    have hd : d.isDigit = true := hds d (by simp)
    have ih2 := ih (fun c hc => hds c (List.mem_cons_of_mem d hc))
    simp [takeDigits, hd, ih2]

theorem jsParseIntChars_digits_garbage (ds rest : List Char) (hne : ds ≠ [])
    (hds : ∀ c ∈ ds, c.isDigit = true)
    (hrest : ∀ c ∈ rest.take 1, c.isDigit = false) :
    jsParseIntChars (ds ++ rest) = some (digitsVal ds : Int) := by
  cases ds with
  | nil => exact absurd rfl hne
  | cons d ds' =>
    have hd : d.isDigit = true := hds d (by simp)
    have hws : d.isWhitespace = false := digit_not_ws d hd
    have hdash : ¬ d = '-' := digit_ne_dash d hd
    have hplus : ¬ d = '+' := digit_ne_plus d hd
    have htd := takeDigits_append (d :: ds') rest hds hrest
    rw [List.cons_append] at htd
    unfold jsParseIntChars skipWs
    simp only [List.cons_append, List.dropWhile_cons, hws, Bool.false_eq_true,
      if_false, signSplit, if_neg hdash, if_neg hplus, htd]
    simp [digitsVal]

/-- C9: a numeric prefix followed by non-numeric garbage parses to the
prefix's value (general statement over the parseInt model), the claim's
example metrics are classified valid and scored from their prefixes, and a
fractional blood-pressure side is truncated to its integer part before the
branch table is applied. -/
theorem numeric_prefix_tolerance :
    (∀ (ds rest : List Char), ds ≠ [] → (∀ c ∈ ds, c.isDigit = true) →
      (∀ c ∈ rest.take 1, c.isDigit = false) →
      jsParseIntChars (ds ++ rest) = some (digitsVal ds : Int)) ∧
    validTempB (some "98.6F") = true ∧
    jsParseFloatStr "98.6F" = some ⟨986, 1⟩ ∧
    getTemperatureScore (some "98.6F") = tempScoreDec ⟨986, 1⟩ ∧
    validBPIJ (some "150abc/95def") = true ∧
    getBloodPressureScore (some "150abc/95def") = bpScoreSD 150 95 ∧
    validBPIJ (some "120.5/80.5") = true ∧
    jsParseIntPart "120.5/80.5" 0 = some 120 ∧
    jsParseIntPart "120.5/80.5" 1 = some 80 ∧
    getBloodPressureScore (some "120.5/80.5") = bpScoreSD 120 80 := by
  refine ⟨jsParseIntChars_digits_garbage, by decide, by decide, by decide,
    by decide, by decide, by decide, by decide, by decide, by decide⟩

/-- Witness for C9: the digit run 150 followed by the garbage abc parses to
150. -/
theorem numeric_prefix_tolerance_witness :
    jsParseIntChars (['1', '5', '0'] ++ ['a', 'b', 'c']) = some 150 :=
  numeric_prefix_tolerance.1 ['1', '5', '0'] ['a', 'b', 'c'] (by decide)
    (by decide) (by decide)

/-- C10: whenever the index.js classifier leaves all three alert collections
empty, the top-level run does not attempt the submission POST and ends in
the error path. -/
theorem empty_alerts_no_submit (ps : List Patient) (ok : Bool)
    (h1 : (analyzePatientsIJ ps).highRiskPatients = [])
    (h2 : (analyzePatientsIJ ps).feverPatients = [])
    (h3 : (analyzePatientsIJ ps).dataQualityIssues = []) :
    mainIJ ps ok = ⟨false, true⟩ := by
  unfold mainIJ
  by_cases hlen : ps.length = 0
  · rw [if_pos hlen]
  · rw [if_neg hlen]
    simp [h1, h2, h3]

/-- Witness for C10: a single fully-valid low-risk afebrile record produces
three empty alert collections, and the run errors without submitting. -/
theorem empty_alerts_no_submit_witness :
    (analyzePatientsIJ
      [⟨some "P1", some "110/70", some "98", some "30"⟩]).highRiskPatients = [] ∧
    (analyzePatientsIJ
      [⟨some "P1", some "110/70", some "98", some "30"⟩]).feverPatients = [] ∧
    (analyzePatientsIJ
      [⟨some "P1", some "110/70", some "98", some "30"⟩]).dataQualityIssues = [] ∧
    mainIJ [⟨some "P1", some "110/70", some "98", some "30"⟩] true =
      ⟨false, true⟩ :=
  ⟨by decide, by decide, by decide,
   empty_alerts_no_submit _ _ (by decide) (by decide) (by decide)⟩

end Ksense
